import Mathlib

/-!
Verification of the Animation Studio code-generation module and component
registry, shallowly embedded from the TypeScript sources
(`codeGenerator.ts` and `registry/ComponentRegistry.ts`).

JavaScript runtime values reaching the generator are modelled by the
inductive `Value`; machine floats do not occur in the verified claims, so
numbers are modelled by `Int`.  Reference-typed values (arrays, objects)
are modelled by an identity token, since the only operation the generator
applies to them that the claims touch is strict equality (`===`), which is
reference identity for objects.
-/

namespace AnimStudio

/-- A JavaScript runtime value as it reaches the code generator: a string,
a number (integral in all verified scenarios), a boolean, or a
reference-typed value represented by its identity token. -/
inductive Value where
  | str (s : String)
  | num (n : Int)
  | bool (b : Bool)
  | ref (id : Nat)
deriving DecidableEq

/-- JavaScript strict equality `===` on the modelled values: value equality
for primitives of the same type, identity for references, `false` across
types (`===` never coerces). -/
def strictEq : Value → Value → Bool
  | .str a, .str b => a == b
  | .num a, .num b => a == b
  | .bool a, .bool b => a == b
  | .ref a, .ref b => a == b
  | _, _ => false

/-- JavaScript truthiness of a modelled value (`""`, `0` and `false` are
falsy; every reference value is truthy). -/
def jsTruthy : Value → Bool
  | .str s => !(s == "")
  | .num n => !(n == 0)
  | .bool b => b
  | .ref _ => true

/-- Template-literal interpolation `${value}` of a modelled value.  The
stringification of a reference value is irrelevant to every claim and is
given a placeholder. -/
def jsToString : Value → String
  | .str s => s
  | .num n => toString n
  | .bool b => if b then "true" else "false"
  | .ref _ => "[object]"

/-- The JavaScript comparison `value > 0` (ToNumber coercion).  Faithful on
numbers and booleans and on integral strings; fractional numeric strings
and reference values do not occur as `delay` values in this repository. -/
def jsGtZero : Value → Bool
  | .num n => 0 < n
  | .bool b => b
  | .str s => 0 < ((s.trim.toInt?).getD 0)
  | .ref _ => false

/-- The closed enumeration of prop types (`PropType` in `core/types.ts`). -/
inductive PropType where
  | number
  | string
  | boolean
  | color
  | bezier
  | select
  | range
deriving DecidableEq

/-- `PropConfig` from `core/types.ts`: the declarative description of one
configurable property.  Optional fields are `Option`s defaulting to
`none`. -/
structure PropConfig where
  label : String
  type : PropType
  defaultValue : Value
  min : Option Int := none
  max : Option Int := none
  step : Option Int := none
  options : Option (List (String × Value)) := none
  description : Option String := none
  isAnimationProp : Option Bool := none
  validate : Option (Value → Bool) := none
  transform : Option (Value → String) := none

/-- One entry of `additionalImports`: `{ name, path, isType? }`. -/
structure ImportSpec where
  name : String
  path : String
  isType : Option Bool := none
deriving DecidableEq

/-- The React component function held in a definition; the generator only
reads its JavaScript `name` property. -/
structure Component where
  name : String
deriving DecidableEq

/-- `StateMode` from `core/types.ts`. -/
inductive StateMode where
  | toggle
  | button
deriving DecidableEq

/-- `ComponentDefinition` from `core/types.ts`.  `propSchema` is an
insertion-ordered association list (a JavaScript object with unique keys);
`component` and `propSchema` are required fields of the TypeScript
interface and are total here. -/
structure ComponentDefinition where
  id : String
  name : String
  description : String
  component : Component
  propSchema : List (String × PropConfig)
  defaultProps : List (String × Value)
  stateMode : Option StateMode := none
  category : Option String := none
  tags : Option (List String) := none
  importPath : String
  additionalImports : Option (List ImportSpec) := none
  componentCode : Option String := none

/-- `AnimationConfig` from `core/types.ts`: the current editing session
state; `props` is the insertion-ordered current prop-value mapping. -/
structure AnimationConfig where
  componentId : String
  props : List (String × Value)
  isActive : Bool

/-- `GeneratedCode` from `core/types.ts`. -/
structure GeneratedCode where
  componentCode : String
  usageCode : String
  cssCode : Option String
  imports : List String

/-- Property lookup `definition.propSchema[key]` on the association list. -/
def schemaLookup (schema : List (String × PropConfig)) (key : String) : Option PropConfig :=
  (schema.find? (fun p => p.1 == key)).map (fun p => p.2)

/-- One step of the `forEach` in `generateImports` that partitions
`additionalImports` into `(typeImports, valueImports)`, each
order-preserving. -/
def splitStep (acc : List String × List String) (imp : ImportSpec) : List String × List String :=
  if imp.isType.getD false then (acc.1 ++ [imp.name], acc.2) else (acc.1, acc.2 ++ [imp.name])

/-- The partition of `additionalImports` built by the `forEach` in
`generateImports`. -/
def splitAdditionalImports (adds : List ImportSpec) : List String × List String :=
  adds.foldl splitStep ([], [])

/-- The final name list of the primary import line (the local
`mainImportNames` of `generateImports`): the component function's name,
then the value imports appended when any exist. -/
def mainImportNames (d : ComponentDefinition) : List String :=
  match d.additionalImports with
  | none => [d.component.name]
  | some adds =>
    let valueImports := (splitAdditionalImports adds).2
    if valueImports.length > 0 then [d.component.name] ++ valueImports else [d.component.name]

/-- The type-import names collected by `generateImports` (empty when
`additionalImports` is absent). -/
def typeImportNamesOf (d : ComponentDefinition) : List String :=
  match d.additionalImports with
  | none => []
  | some adds => (splitAdditionalImports adds).1

/-- The primary import line, built from the final combined name list. -/
def primaryImportLine (d : ComponentDefinition) : String := "import \x7b "
  ++ String.intercalate ", " (mainImportNames d) ++ " \x7d from '" ++ d.importPath ++ "'"

/-- The type-only import line listing the `isType` names. -/
def typeOnlyImportLine (d : ComponentDefinition) : String := "import type \x7b "
  ++ String.intercalate ", " (typeImportNamesOf d) ++ " \x7d from '" ++ d.importPath ++ "'"

/-- `generateImports` from `codeGenerator.ts`: the type-only line is pushed
first (when any type import exists) and the primary line is then
`unshift`ed in front of it. -/
def generateImports (d : ComponentDefinition) : List String :=
  primaryImportLine d ::
    (if (typeImportNamesOf d).length > 0 then [typeOnlyImportLine d] else [])

/-- `generateComponentCode` from `codeGenerator.ts`: the two-line
placeholder comment naming the import path. -/
def generateComponentCode (d : ComponentDefinition) : String :=
  "// Component is defined in: " ++ d.importPath ++
    "\n// Use the import statement above to use this component"

/-- The attribute line `generateUsageCode` emits for one entry of
`config.props` (`none` when the `forEach` body returns early and emits
nothing). -/
def attrLine (d : ComponentDefinition) (kv : String × Value) : Option String :=
  match schemaLookup d.propSchema kv.1 with
  | none => none
  | some propConfig =>
    if strictEq kv.2 propConfig.defaultValue then none
    else if strictEq kv.2 (Value.str "") && strictEq propConfig.defaultValue (Value.str "") then none
    else
      match propConfig.transform with
      | some tf =>
        if tf kv.2 == "undefined" then none
        else some ("      " ++ kv.1 ++ "=" ++ tf kv.2)
      | none =>
        match kv.2 with
        | Value.str s => some ("      " ++ kv.1 ++ "=\"" ++ s ++ "\"")
        | Value.bool b =>
          if b then some ("      " ++ kv.1 ++ "=true") else none
        | v => some ("      " ++ kv.1 ++ "=\x7b" ++ jsToString v ++ "\x7d")

/-- The line list built by `generateUsageCode`: the fixed header, one
optional attribute line per current prop in mapping order, and the fixed
footer. -/
def usageLines (config : AnimationConfig) (d : ComponentDefinition) : List String :=
  ["// Usage Example",
   "'use client'",
   "", "import \x7b useState \x7d from 'react'", "import \x7b "
     ++ d.component.name ++ " \x7d from '" ++ d.importPath ++ "'", "",
   "export function Example() \x7b",
   "  const [checked, setChecked] = useState(false)",
   "",
   "  return (",
   "    <" ++ d.component.name,
   "      checked=\x7bchecked\x7d",
   "      onCheckedChange=\x7bsetChecked\x7d"]
  ++ config.props.filterMap (attrLine d)
  ++ ["    />", "  )", "\x7d"]

/-- `generateUsageCode` from `codeGenerator.ts`. -/
def generateUsageCode (config : AnimationConfig) (d : ComponentDefinition) : String :=
  String.intercalate "\n" (usageLines config d)

/-- The CSS line `generateCSSCode` pushes for one entry of `config.props`
(`none` when the entry is filtered out or its name is outside the fixed
table). -/
def cssProp (d : ComponentDefinition) (kv : String × Value) : Option String :=
  match schemaLookup d.propSchema kv.1 with
  | none => none
  | some propConfig =>
    if !(propConfig.isAnimationProp.getD false) then none
    else if strictEq kv.2 propConfig.defaultValue then none
    else if kv.1 == "duration" then
      some ("  transition-duration: " ++ jsToString kv.2 ++ "ms;")
    else if kv.1 == "timingFunction" then
      some ("  transition-timing-function: " ++ jsToString kv.2 ++ ";")
    else if kv.1 == "delay" then
      if jsGtZero kv.2 then some ("  transition-delay: " ++ jsToString kv.2 ++ "ms;") else none
    else none

/-- The accumulated `cssProps` array of `generateCSSCode`. -/
def cssLines (config : AnimationConfig) (d : ComponentDefinition) : List String :=
  config.props.filterMap (cssProp d)

/-- `generateCSSCode` from `codeGenerator.ts`: `undefined` when no line was
accumulated, otherwise the lines wrapped in one `.animated-element` rule
block. -/
def generateCSSCode (config : AnimationConfig) (d : ComponentDefinition) : Option String :=
  let cssProps := cssLines config d
  if cssProps.length = 0 then none
  else some (".animated-element \x7b\n" ++ String.intercalate "\n" cssProps ++ "\n\x7d")

/-- `generateCode` from `codeGenerator.ts`.  The `componentCode` field is
`definition.componentCode || generateComponentCode(definition)`: JavaScript
`||` falls through on the empty string, which is falsy. -/
def generateCode (config : AnimationConfig) (d : ComponentDefinition) : GeneratedCode :=
  { componentCode :=
      match d.componentCode with
      | some s => if s == "" then generateComponentCode d else s
      | none => generateComponentCode d
  , usageCode := generateUsageCode config d
  , cssCode := generateCSSCode config d
  , imports := generateImports d }

/-! ## Internal registry (`registry/ComponentRegistry.ts`)

The registry's `Map<string, ComponentDefinition>` is modelled as an
insertion-ordered association list; inserting a fresh key appends.  The
call is run in state-passing style: `registerComponent` returns the map
after the call together with the thrown error message, if any (the source
throws before mutating, so on the error path the returned map is the input
map).  The source's defensive checks for a missing `component`/`propSchema`
cannot fire in this embedding, where both fields are total, and are
omitted. -/

/-- The registry state: insertion-ordered id/definition pairs. -/
abbrev Registry := List (String × ComponentDefinition)

/-- `componentRegistry.has(id)`. -/
def hasComponent (r : Registry) (id : String) : Bool :=
  List.any r (fun p => p.1 == id)

/-- `getComponent` from `ComponentRegistry.ts` (`componentRegistry.get`). -/
def getComponent (r : Registry) (id : String) : Option ComponentDefinition :=
  (List.find? (fun p => p.1 == id) r).map (fun p => p.2)

/-- `registerComponent` from `ComponentRegistry.ts`: throws when the id is
already present (before any mutation), otherwise inserts the definition. -/
def registerComponent (r : Registry) (d : ComponentDefinition) : Registry × Option String :=
  if hasComponent r d.id then
    (r, some ("Component with ID \"" ++ d.id ++ "\" is already registered"))
  else
    (r ++ [(d.id, d)], none)

/-! ## Concrete fixtures

The `liquid-toggle` component definition from
`registry/definitions/liquid-toggle.ts`, with the two transform shapes that
appear in the repository's prop schemas. -/

/-- The transform `(value) => `"${value}"`` of the `timingFunction` prop. -/
def quoteTransform : Value → String :=
  fun value => "\"" ++ jsToString value ++ "\""

/-- The transform `(value) => value ? `"${value}"` : 'undefined'` of the
optional color props. -/
def colorTransform : Value → String :=
  fun value => if jsTruthy value then "\"" ++ jsToString value ++ "\"" else "undefined"

/-- The `variant` PropConfig of `liquid-toggle`. -/
def variantPC : PropConfig :=
  { label := "Variant", type := PropType.select, defaultValue := Value.str "default",
    options := some [("Default", Value.str "default"), ("Success", Value.str "success"),
                     ("Warning", Value.str "warning"), ("Danger", Value.str "danger")],
    description := some "Visual variant for color theming" }

/-- The `duration` PropConfig of `liquid-toggle`. -/
def durationPC : PropConfig :=
  { label := "Duration", type := PropType.range, defaultValue := Value.num 600,
    min := some 100, max := some 2000, step := some 50,
    description := some "Animation duration in milliseconds",
    isAnimationProp := some true }

/-- The `timingFunction` PropConfig of `liquid-toggle`. -/
def timingFunctionPC : PropConfig :=
  { label := "Timing Function", type := PropType.bezier,
    defaultValue := Value.str "cubic-bezier(0.4, 0.0, 0.2, 1)",
    description := some "Animation easing curve",
    isAnimationProp := some true, transform := some quoteTransform }

/-- The `delay` PropConfig of `liquid-toggle`. -/
def delayPC : PropConfig :=
  { label := "Delay", type := PropType.range, defaultValue := Value.num 0,
    min := some 0, max := some 1000, step := some 50,
    description := some "Animation delay in milliseconds",
    isAnimationProp := some true }

/-- The `primaryColor` PropConfig of `liquid-toggle`. -/
def primaryColorPC : PropConfig :=
  { label := "Primary Color", type := PropType.color, defaultValue := Value.str "",
    description := some "Primary color (overrides variant)",
    transform := some colorTransform }

/-- The `secondaryColor` PropConfig of `liquid-toggle`. -/
def secondaryColorPC : PropConfig :=
  { label := "Secondary Color", type := PropType.color, defaultValue := Value.str "",
    description := some "Secondary color (overrides variant)",
    transform := some colorTransform }

/-- The `disabled` PropConfig of `liquid-toggle`. -/
def disabledPC : PropConfig :=
  { label := "Disabled", type := PropType.boolean, defaultValue := Value.bool false,
    description := some "Disabled state" }

/-- The `liquid-toggle` ComponentDefinition
(`registry/definitions/liquid-toggle.ts`).  Its `name` is the display name
`"Liquid Toggle"`, while the component function's `name` property is
`"LiquidToggle"`. -/
def toggleDef : ComponentDefinition :=
  { id := "liquid-toggle"
  , name := "Liquid Toggle"
  , description := "A toggle switch with smooth liquid morphing animations and gooey effects"
  , component := { name := "LiquidToggle" }
  , propSchema :=
      [("variant", variantPC), ("duration", durationPC),
       ("timingFunction", timingFunctionPC), ("delay", delayPC),
       ("primaryColor", primaryColorPC), ("secondaryColor", secondaryColorPC),
       ("disabled", disabledPC)]
  , defaultProps :=
      [("variant", Value.str "default"), ("duration", Value.num 600),
       ("timingFunction", Value.str "cubic-bezier(0.4, 0.0, 0.2, 1)"),
       ("delay", Value.num 0), ("primaryColor", Value.str ""),
       ("secondaryColor", Value.str ""), ("disabled", Value.bool false)]
  , category := some "forms"
  , tags := some ["toggle", "switch", "liquid", "animated", "form"]
  , importPath := "@/components/liquid-components/LiquidToggle"
  , additionalImports := some
      [{ name := "LiquidToggleProps", path := "@/components/liquid-components/LiquidToggle",
         isType := some true }] }

/-- A definition with both a type import and a value import, exercising the
value-import merge of `generateImports` (the shape produced when a widget
also re-exports a helper such as `GooeyFilter`). -/
def demoDef : ComponentDefinition :=
  { toggleDef with
    additionalImports := some
      [{ name := "LiquidToggleProps", path := "@/components/liquid-components/LiquidToggle",
         isType := some true },
       { name := "GooeyFilter", path := "@/components/liquid-components/LiquidToggle" }] }

/-- A session whose only edit sets `duration` to 800 (default 600). -/
def durCfg : AnimationConfig :=
  { componentId := "liquid-toggle", props := [("duration", Value.num 800)], isActive := false }

/-- A session whose only edit sets `disabled` to `true` (default `false`). -/
def disabledCfg : AnimationConfig :=
  { componentId := "liquid-toggle", props := [("disabled", Value.bool true)], isActive := false }

/-- A registry holding exactly the first registration of `liquid-toggle`. -/
def regOne : Registry :=
  (registerComponent [] toggleDef).1

/-- `toggleDef` with an empty-string `componentCode` override. -/
def emptyOverrideDef : ComponentDefinition :=
  { toggleDef with componentCode := some "" }

/-- The names of the type imports of a definition, as the spec describes
them: the `isType` entries of `additionalImports`, in their given order. -/
def typeImportNamesSpec (d : ComponentDefinition) : List String :=
  ((d.additionalImports.getD []).filter (fun i => i.isType.getD false)).map (fun i => i.name)

/-- The names of the value (non-type) imports of a definition, as the spec
describes them: the non-`isType` entries of `additionalImports`, in their
given order. -/
def valueImportNamesSpec (d : ComponentDefinition) : List String :=
  ((d.additionalImports.getD []).filter (fun i => !(i.isType.getD false))).map (fun i => i.name)

/-- `primaryColorPC` with a non-empty default, exercising transform
omission when the current value differs from the default. -/
def colorDefaultRedPC : PropConfig :=
  { primaryColorPC with defaultValue := Value.str "red" }

/-- A single-prop definition whose optional color prop defaults to a
non-empty color. -/
def colorDemoDef : ComponentDefinition :=
  { toggleDef with propSchema := [("primaryColor", colorDefaultRedPC)] }

/-- `toggleDef` with a non-empty `componentCode` override. -/
def customOverrideDef : ComponentDefinition :=
  { toggleDef with componentCode := some "// custom component" }

/-! ## Theorems -/

theorem splitStep_foldl (adds : List ImportSpec) (acc : List String × List String) :
    adds.foldl splitStep acc =
      (acc.1 ++ (adds.filter (fun i => i.isType.getD false)).map (fun i => i.name),
       acc.2 ++ (adds.filter (fun i => !(i.isType.getD false))).map (fun i => i.name)) := by
  induction adds generalizing acc with
  | nil => simp
  | cons a l ih =>
    simp only [List.foldl_cons, List.filter_cons]
    cases h : a.isType.getD false <;>
      simp [splitStep, h, ih, List.append_assoc]

theorem splitAdditionalImports_eq (adds : List ImportSpec) :
    splitAdditionalImports adds =
      ((adds.filter (fun i => i.isType.getD false)).map (fun i => i.name),
       (adds.filter (fun i => !(i.isType.getD false))).map (fun i => i.name)) := by
  simp [splitAdditionalImports, splitStep_foldl]

theorem typeImportNamesOf_eq (d : ComponentDefinition) :
    typeImportNamesOf d = typeImportNamesSpec d := by
  cases h : d.additionalImports <;>
    simp [typeImportNamesOf, typeImportNamesSpec, h, splitAdditionalImports_eq]

theorem mainImportNames_eq (d : ComponentDefinition) :
    mainImportNames d = d.component.name :: valueImportNamesSpec d := by
  cases h : d.additionalImports with
  | none => simp [mainImportNames, valueImportNamesSpec, h]
  | some adds =>
    simp only [mainImportNames, valueImportNamesSpec, h, splitAdditionalImports_eq,
      Option.getD_some]
    split
    · simp
    · next hlen =>
      have : (adds.filter (fun i => !(i.isType.getD false))).map (fun i => i.name) = [] := by
        have := Nat.eq_zero_of_not_pos hlen
        exact List.eq_nil_of_length_eq_zero this
      simp [this]

theorem generateImports_eq (d : ComponentDefinition) :
    generateImports d =
      primaryImportLine d ::
        (if typeImportNamesSpec d = [] then [] else [typeOnlyImportLine d]) := by
  cases h : typeImportNamesSpec d with
  | nil => simp [generateImports, typeImportNamesOf_eq, h]
  | cons a l => simp [generateImports, typeImportNamesOf_eq, h]

/-- C4 (amended): for every ComponentDefinition, the primary import line's
name list starts with the component function's name
(`definition.component.name`) — not the definition's `name` field — and is
followed by the names of the value (non-type) additionalImports in their
given order. -/
theorem mainImportNames_spec (d : ComponentDefinition) :
    mainImportNames d = d.component.name :: valueImportNamesSpec d :=
  mainImportNames_eq d

/-- C4 counterexample: for the registered `liquid-toggle` definition the
primary name list starts with the component function's name
`"LiquidToggle"`, which is not the definition's `name` field
`"Liquid Toggle"`. -/
theorem importName_counterexample :
    toggleDef.name = "Liquid Toggle" ∧
    (mainImportNames toggleDef).head? = some "LiquidToggle" ∧
    (mainImportNames toggleDef).head? ≠ some toggleDef.name := by decide

/-- C5: in the imports array of the generated result, the primary
`import { ... } from '<importPath>'` line is at index 0, while the
type-only line, present exactly when some additional import has `isType`
true, comes directly after it. -/
theorem imports_order (config : AnimationConfig) (d : ComponentDefinition) :
    (generateCode config d).imports =
      primaryImportLine d ::
        (if typeImportNamesSpec d = [] then [] else [typeOnlyImportLine d]) := by
  simpa [generateCode] using generateImports_eq d

theorem primary_ne_typeOnly (d : ComponentDefinition) :
    primaryImportLine d ≠ typeOnlyImportLine d := by
  intro hc
  have hd := congrArg String.data hc
  unfold primaryImportLine typeOnlyImportLine at hd
  simp only [String.data_append, List.append_assoc] at hd
  have h7 : (("import \x7b " : String).data ++
      ((String.intercalate ", " (mainImportNames d)).data ++
        ((" \x7d from '" : String).data ++ (d.importPath.data ++ ("'" : String).data))))[7]? =
      (("import type \x7b " : String).data ++
      ((String.intercalate ", " (typeImportNamesOf d)).data ++
        ((" \x7d from '" : String).data ++ (d.importPath.data ++ ("'" : String).data))))[7]? := by
    rw [hd]
  rw [List.getElem?_append_left (by decide), List.getElem?_append_left (by decide)] at h7
  exact absurd h7 (by decide)

/-- C10: the imports sequence is either the primary line alone or the
primary line followed by the type-only line, so it contains exactly one
primary import line and at most one type-only import line, its length is 1
or 2, and value additionalImports never produce a standalone import line —
their names are only merged into the primary line's name list. -/
theorem imports_shape (d : ComponentDefinition) :
    (generateImports d = [primaryImportLine d] ∨
      generateImports d = [primaryImportLine d, typeOnlyImportLine d]) ∧
    ((generateImports d).length = 1 ∨ (generateImports d).length = 2) ∧
    (generateImports d).count (primaryImportLine d) = 1 ∧
    (generateImports d).count (typeOnlyImportLine d) ≤ 1 ∧
    (∀ imp ∈ d.additionalImports.getD [], imp.isType.getD false = false →
      imp.name ∈ mainImportNames d) := by
  have hne := primary_ne_typeOnly d
  have hshape : generateImports d = [primaryImportLine d] ∨
      generateImports d = [primaryImportLine d, typeOnlyImportLine d] := by
    rw [generateImports_eq d]
    split
    · exact Or.inl rfl
    · exact Or.inr rfl
  refine ⟨hshape, ?_, ?_, ?_, ?_⟩
  · rcases hshape with h | h <;> rw [h] <;> simp
  · rcases hshape with h | h <;> rw [h] <;>
      simp [List.count_cons, List.count_nil, beq_iff_eq, hne, Ne.symm hne]
  · rcases hshape with h | h <;> rw [h] <;>
      simp [List.count_cons, List.count_nil, beq_iff_eq, hne, Ne.symm hne]
  · intro imp hmem hval
    rw [mainImportNames_eq d]
    refine List.mem_cons_of_mem _ ?_
    unfold valueImportNamesSpec
    exact List.mem_map_of_mem _ (List.mem_filter.mpr ⟨hmem, by simp [hval]⟩)

/-- C10 witness: for a definition carrying one type import and one value
entry, the imports sequence holds the primary line exactly once, the
type-only line at most once, and the value entry's name is merged into the
primary name list. -/
theorem imports_shape_witness :
    (generateImports demoDef).count (primaryImportLine demoDef) = 1 ∧
    (generateImports demoDef).count (typeOnlyImportLine demoDef) ≤ 1 ∧
    "GooeyFilter" ∈ mainImportNames demoDef := by
  refine ⟨(imports_shape demoDef).2.2.1, (imports_shape demoDef).2.2.2.1, ?_⟩
  exact (imports_shape demoDef).2.2.2.2
    { name := "GooeyFilter", path := "@/components/liquid-components/LiquidToggle" }
    (by decide) (by decide)

/-- C2: for every entry of the current props mapping, no attribute line is
emitted when the property name has no PropConfig in the definition's
propSchema, and none is emitted when the current value is strictly equal to
the PropConfig's defaultValue. -/
theorem usage_omission (d : ComponentDefinition) (k : String) (v : Value) :
    (schemaLookup d.propSchema k = none → attrLine d (k, v) = none) ∧
    (∀ pc, schemaLookup d.propSchema k = some pc → strictEq v pc.defaultValue = true →
      attrLine d (k, v) = none) := by
  constructor
  · intro h
    simp [attrLine, h]
  · intro pc h heq
    simp [attrLine, h, heq]

/-- C2 witness: for `liquid-toggle`, the unknown key `foo` emits nothing,
and `duration` at its default 600 emits nothing. -/
theorem usage_omission_witness :
    attrLine toggleDef ("foo", Value.num 1) = none ∧
    attrLine toggleDef ("duration", Value.num 600) = none :=
  ⟨(usage_omission toggleDef "foo" (Value.num 1)).1 rfl,
   (usage_omission toggleDef "duration" (Value.num 600)).2 durationPC rfl rfl⟩

/-- C3: whenever the PropConfig has a transform whose application to the
current value yields exactly `"undefined"`, the attribute is omitted,
whatever the relation of the current value to the defaultValue. -/
theorem transform_sentinel (d : ComponentDefinition) (k : String) (v : Value)
    (pc : PropConfig) (f : Value → String) (h : schemaLookup d.propSchema k = some pc)
    (ht : pc.transform = some f) (hu : f v = "undefined") :
    attrLine d (k, v) = none := by
  simp only [attrLine, h, ht, hu]
  split
  · rfl
  · split
    · rfl
    · simp

/-- C3 witness: the color transform
`(value) => value ? `"${value}"` : 'undefined'` applied to the empty string
yields the sentinel, so `primaryColor` is omitted both when its default is
the empty string (`toggleDef`) and when it is a non-empty color
(`colorDemoDef`). -/
theorem transform_sentinel_witness :
    attrLine toggleDef ("primaryColor", Value.str "") = none ∧
    attrLine colorDemoDef ("primaryColor", Value.str "") = none :=
  ⟨transform_sentinel toggleDef "primaryColor" (Value.str "") primaryColorPC
      colorTransform rfl rfl rfl,
   transform_sentinel colorDemoDef "primaryColor" (Value.str "") colorDefaultRedPC
      colorTransform rfl rfl rfl⟩

/-- C1 counterexample: with `disabled` set to `true` (default `false`, no
transform), the emitted attribute line is `      disabled=true` — the bare
literal — and no line of the usage code is the braced
`disabled={true}` form the claim states. -/
theorem boolean_attr_counterexample :
    attrLine toggleDef ("disabled", Value.bool true) = some "      disabled=true" ∧
    (∀ l ∈ usageLines disabledCfg toggleDef,
      l ≠ "  disabled=\x7btrue\x7d" ∧ l ≠ "      disabled=\x7btrue\x7d") := by decide

/-- C1 (amended): for every prop without a transform whose value is boolean
`true` and differs from its defaultValue, the emitted line is
`      <key>=true` (the bare literal, not the braced `{true}`); and for
every prop without a transform whose value is boolean `false`, no attribute
is emitted, whatever the defaultValue. -/
theorem boolean_attr_emission (d : ComponentDefinition) (k : String) (pc : PropConfig)
    (h : schemaLookup d.propSchema k = some pc) (ht : pc.transform = none) :
    (strictEq (Value.bool true) pc.defaultValue = false →
      attrLine d (k, Value.bool true) = some ("      " ++ k ++ "=true")) ∧
    attrLine d (k, Value.bool false) = none := by
  have hc : ∀ b : Bool,
      (strictEq (Value.bool b) (Value.str "") && strictEq pc.defaultValue (Value.str "")) = false := by
    intro b
    simp [strictEq]
  constructor
  · intro hne
    simp [attrLine, h, hne, ht, hc]
  · cases hb : strictEq (Value.bool false) pc.defaultValue <;>
      simp [attrLine, h, hb, ht, hc]

/-- C1 witness: for the `disabled` prop of `liquid-toggle` (default
`false`, no transform), `true` emits the bare line and `false` emits
nothing. -/
theorem boolean_attr_emission_witness :
    attrLine toggleDef ("disabled", Value.bool true) = some ("      " ++ "disabled" ++ "=true") ∧
    attrLine toggleDef ("disabled", Value.bool false) = none :=
  ⟨(boolean_attr_emission toggleDef "disabled" disabledPC rfl rfl).1 rfl,
   (boolean_attr_emission toggleDef "disabled" disabledPC rfl rfl).2⟩

/-- C6 counterexample: with `componentCode` set to the empty string, the
generated `componentCode` field is the synthesized placeholder comment, not
the empty override returned verbatim (JavaScript `||` treats `""` as
falsy). -/
theorem componentCode_counterexample :
    emptyOverrideDef.componentCode = some "" ∧
    (generateCode durCfg emptyOverrideDef).componentCode ≠ "" ∧
    (generateCode durCfg emptyOverrideDef).componentCode =
      "// Component is defined in: @/components/liquid-components/LiquidToggle\n// Use the import statement above to use this component" := by
  decide

/-- C6 (amended): if `definition.componentCode` is set and non-empty, it is
returned verbatim as the `componentCode` field, with no merging; otherwise
— when it is unset or the empty string — `componentCode` is the two-line
comment naming `definition.importPath` as the implementation location. -/
theorem componentCode_override (config : AnimationConfig) (d : ComponentDefinition) :
    (∀ s, d.componentCode = some s → s ≠ "" →
      (generateCode config d).componentCode = s) ∧
    ((d.componentCode = none ∨ d.componentCode = some "") →
      (generateCode config d).componentCode =
        "// Component is defined in: " ++ d.importPath ++
          "\n// Use the import statement above to use this component") := by
  constructor
  · intro s hs hne
    simp [generateCode, hs, hne]
  · rintro (h | h) <;> simp [generateCode, generateComponentCode, h]

/-- C6 witness: a non-empty override is returned verbatim, and the
override-free `liquid-toggle` definition gets the placeholder comment. -/
theorem componentCode_override_witness :
    (generateCode durCfg customOverrideDef).componentCode = "// custom component" ∧
    (generateCode durCfg toggleDef).componentCode =
      "// Component is defined in: " ++ toggleDef.importPath ++
        "\n// Use the import statement above to use this component" :=
  ⟨(componentCode_override durCfg customOverrideDef).1 "// custom component" rfl
      (by decide),
   (componentCode_override durCfg toggleDef).2 (Or.inl rfl)⟩

theorem cssProp_some_elim (d : ComponentDefinition) (k : String) (v : Value) (l : String)
    (h : cssProp d (k, v) = some l) :
    ∃ pc, schemaLookup d.propSchema k = some pc ∧ pc.isAnimationProp.getD false = true ∧
      strictEq v pc.defaultValue = false ∧
      (k = "duration" ∨ k = "timingFunction" ∨ k = "delay") := by
  rcases hf : schemaLookup d.propSchema k with _ | pc
  · simp [cssProp, hf] at h
  · refine ⟨pc, rfl, ?_⟩
    simp only [cssProp, hf] at h
    split_ifs at h with h1 h2 h3 h4 h5 h6 <;>
      first
      | exact Option.noConfusion h
      | (refine ⟨by simpa using h1, by simpa using h2, ?_⟩
         first
         | (left; simpa using h3)
         | (right; left; simpa using h4)
         | (right; right; simpa using h5))

theorem cssProp_delay_zero_none (d : ComponentDefinition) :
    cssProp d ("delay", Value.num 0) = none := by
  rcases hf : schemaLookup d.propSchema "delay" with _ | pc <;>
    simp [cssProp, hf, jsGtZero]

/-- C7: a CSS line is produced only for a prop whose PropConfig has
`isAnimationProp` true, whose value differs strictly from its defaultValue,
and whose name is in the fixed table duration/timingFunction/delay; a delay
value of 0 never produces a line even when the default is non-zero; and a
prop that is not an animation prop never contributes to the CSS, changed or
not. -/
theorem css_filtering (config : AnimationConfig) (d : ComponentDefinition) :
    (∀ l ∈ cssLines config d, ∃ k v, (k, v) ∈ config.props ∧ cssProp d (k, v) = some l ∧
      ∃ pc, schemaLookup d.propSchema k = some pc ∧ pc.isAnimationProp.getD false = true ∧
        strictEq v pc.defaultValue = false ∧
        (k = "duration" ∨ k = "timingFunction" ∨ k = "delay")) ∧
    (∀ d' : ComponentDefinition, cssProp d' ("delay", Value.num 0) = none) ∧
    (∀ k v pc, schemaLookup d.propSchema k = some pc →
      pc.isAnimationProp.getD false = false → cssProp d (k, v) = none) := by
  refine ⟨?_, cssProp_delay_zero_none, ?_⟩
  · intro l hl
    rcases List.mem_filterMap.mp hl with ⟨⟨k, v⟩, hmem, hsome⟩
    exact ⟨k, v, hmem, hsome, cssProp_some_elim d k v l hsome⟩
  · intro k v pc hf hanim
    simp [cssProp, hf, hanim]

/-- C7 witness: `duration=800` produces its transition line through an
animation prop differing from its default; `delay=0` produces nothing; and
the non-animation `disabled` prop produces nothing even when changed. -/
theorem css_filtering_witness :
    (∃ k v, (k, v) ∈ durCfg.props ∧
      cssProp toggleDef (k, v) = some "  transition-duration: 800ms;" ∧
      ∃ pc, schemaLookup toggleDef.propSchema k = some pc ∧
        pc.isAnimationProp.getD false = true ∧ strictEq v pc.defaultValue = false ∧
        (k = "duration" ∨ k = "timingFunction" ∨ k = "delay")) ∧
    cssProp toggleDef ("delay", Value.num 0) = none ∧
    cssProp toggleDef ("disabled", Value.bool true) = none := by
  refine ⟨?_, (css_filtering durCfg toggleDef).2.1 toggleDef, ?_⟩
  · exact (css_filtering durCfg toggleDef).1 "  transition-duration: 800ms;" (by decide)
  · exact (css_filtering durCfg toggleDef).2.2 "disabled" (Value.bool true) disabledPC rfl rfl

theorem cssWrap_ne_empty (mid : String) :
    ".animated-element \x7b\n" ++ mid ++ "\n\x7d" ≠ "" := by
  intro hc
  have hlen := congrArg String.length hc
  rw [String.length_append, String.length_append] at hlen
  have h1 : (".animated-element \x7b\n" : String).length = 20 := by decide
  have h2 : ("\n\x7d" : String).length = 2 := by decide
  have h3 : ("" : String).length = 0 := by decide
  omega

/-- C8: the `cssCode` field of the generated result is absent (`none`)
exactly when zero CSS lines are produced, and is never the empty string;
when lines exist, it is the accumulated lines wrapped in a single
`.animated-element { ... }` rule block. -/
theorem cssCode_signal (config : AnimationConfig) (d : ComponentDefinition) :
    ((generateCode config d).cssCode = none ↔ cssLines config d = []) ∧
    (∀ s, (generateCode config d).cssCode = some s → s ≠ "") ∧
    (cssLines config d ≠ [] → (generateCode config d).cssCode =
      some (".animated-element \x7b\n" ++ String.intercalate "\n" (cssLines config d) ++ "\n\x7d")) := by
  have hproj : (generateCode config d).cssCode = generateCSSCode config d := rfl
  refine ⟨?_, ?_, ?_⟩
  · rw [hproj]
    simp only [generateCSSCode]
    split
    · next hlen =>
      simp [List.length_eq_zero.mp hlen]
    · next hlen =>
      simp only [reduceCtorEq, false_iff]
      intro hcontra
      exact hlen (by simp [hcontra])
  · intro s hs
    rw [hproj] at hs
    simp only [generateCSSCode] at hs
    split at hs
    · exact absurd hs (by simp)
    · rw [(Option.some.injEq _ _).mp hs |>.symm] at *
      exact fun hc => cssWrap_ne_empty _ ((Option.some.injEq _ _).mp hs ▸ hc)
  · intro hne
    rw [hproj]
    simp only [generateCSSCode]
    split
    · next hlen => exact absurd (List.length_eq_zero.mp hlen) hne
    · rfl

/-- C8 witness: with `duration=800` edited on `liquid-toggle`, the line
list is non-empty and `cssCode` is the wrapped rule block. -/
theorem cssCode_signal_witness :
    cssLines durCfg toggleDef ≠ [] ∧
    (generateCode durCfg toggleDef).cssCode =
      some (".animated-element \x7b\n" ++
        String.intercalate "\n" (cssLines durCfg toggleDef) ++ "\n\x7d") :=
  ⟨by decide, (cssCode_signal durCfg toggleDef).2.2 (by decide)⟩

/-- C9: a second registration of an id already present fails with the
duplicate-id error, the registry after the failed call is the input
registry unchanged, `get(id)` still returns the first registration's
definition, and no other entry is added, removed, or modified. -/
theorem register_duplicate (r : Registry) (d d₀ : ComponentDefinition)
    (h : getComponent r d.id = some d₀) :
    (registerComponent r d).2 =
      some ("Component with ID \"" ++ d.id ++ "\" is already registered") ∧
    (registerComponent r d).1 = r ∧
    getComponent (registerComponent r d).1 d.id = some d₀ ∧
    (∀ k, getComponent (registerComponent r d).1 k = getComponent r k) := by
  have hhas : hasComponent r d.id = true := by
    unfold getComponent at h
    rcases hfind : List.find? (fun p => p.1 == d.id) r with _ | p
    · rw [hfind] at h
      simp at h
    · unfold hasComponent
      rw [List.any_eq_true]
      have hp := List.find?_some hfind
      have hm := List.mem_of_find?_eq_some hfind
      exact ⟨p, hm, hp⟩
  refine ⟨?_, ?_, ?_, ?_⟩ <;> simp [registerComponent, hhas, h]

/-- C9 witness: registering `liquid-toggle` into a registry that already
holds it yields the duplicate error and leaves the registry unchanged, with
`get` still returning the first registration. -/
theorem register_duplicate_witness :
    (registerComponent regOne toggleDef).2 =
      some ("Component with ID \"liquid-toggle\" is already registered") ∧
    (registerComponent regOne toggleDef).1 = regOne ∧
    getComponent (registerComponent regOne toggleDef).1 "liquid-toggle" = some toggleDef :=
  ⟨(register_duplicate regOne toggleDef toggleDef rfl).1,
   (register_duplicate regOne toggleDef toggleDef rfl).2.1,
   (register_duplicate regOne toggleDef toggleDef rfl).2.2.1⟩

end AnimStudio




